import Mathlib

/-!
Shallow embedding of the meteorological-stations REST API (Express + Mongoose).

The authentication middleware (src/middleware/auth.js), the login route
(src/routes/status.js, auth router part), the station and measurement routers
(src/unnamed/part_000) and the status page handler are translated into pure
Lean functions.  Time is measured in seconds (Unix epoch), MongoDB ObjectIds
are modelled as natural numbers, JavaScript numbers occurring in station and
measurement fields as integers.  Cryptography is idealised: a bcrypt hash is
an injective tagging of the plaintext, and a JWT signature is the triple
(secret, payload, expiry) itself, so that two signatures agree exactly when
those data agree (ideal MAC).
-/

namespace DevopsUp

/-! ### Credential store (user model, schema copied in tools/createAdmin.js) -/

/-- A stored user record: `{username (unique), password (bcrypt hash), role}`
plus the MongoDB `_id`.  The `password` field holds the hash, never the
plaintext (the pre-save hook of the user schema hashes it). -/
structure User where
  _id : Nat
  username : String
  password : String
  role : String
deriving DecidableEq, Repr

/-- Idealised bcrypt: hashing tags the plaintext.  Only `bcryptCompare` is
ever applied to it in the code under study. -/
def bcryptHash (plain : String) : String := "bcrypt$" ++ plain

/-- `bcrypt.compare(plain, stored)`: succeeds exactly when the stored string
is the hash of the plaintext (ideal one-way comparison). -/
def bcryptCompare (plain stored : String) : Bool := stored = bcryptHash plain

/-- `User.findById(id)` on the users collection. -/
def findById (users : List User) (id : Nat) : Option User :=
  users.find? (fun u => u._id = id)

/-- `User.findOne({username})` on the users collection. -/
def findOneByUsername (users : List User) (username : String) : Option User :=
  users.find? (fun u => u.username = username)

/-! ### JWT model (jsonwebtoken as used in src/middleware/auth.js) -/

/-- The payload `{ userId }` signed into every token. -/
structure JwtPayload where
  userId : Nat
deriving DecidableEq, Repr

/-- Ideal MAC: a signature is the signed data together with the secret, so a
signature check is equality of these triples. -/
structure JwtSig where
  secret : String
  userId : Nat
  exp : Nat
deriving DecidableEq, Repr

/-- A parsed JWT: payload, expiry timestamp (seconds) and signature. -/
structure Token where
  payload : JwtPayload
  exp : Nat
  sig : JwtSig
deriving DecidableEq, Repr

/-- `jwt.sign({userId}, secret, {expiresIn: '24h'})` issued at time `now`:
the expiry is 24 hours after issuance. -/
def jwtSign (secret : String) (userId : Nat) (now : Nat) : Token :=
  { payload := ⟨userId⟩
    exp := now + 24 * 60 * 60
    sig := ⟨secret, userId, now + 24 * 60 * 60⟩ }

inductive JwtError
  | invalidSignature
  | expired
deriving DecidableEq, Repr

/-- `jwt.verify(token, secret)` at clock time `now`: the signature is checked
first, then jsonwebtoken raises `TokenExpiredError` when `now ≥ exp`. -/
def jwtVerify (secret : String) (t : Token) (now : Nat) : Except JwtError JwtPayload :=
  if t.sig = ⟨secret, t.payload.userId, t.exp⟩ then
    if now < t.exp then .ok t.payload else .error .expired
  else .error .invalidSignature

/-- `generateToken` (src/middleware/auth.js lines 27–29). -/
def generateToken (secret : String) (userId : Nat) (now : Nat) : Token :=
  jwtSign secret userId now

/-! ### The authentication middleware (src/middleware/auth.js lines 4–25) -/

/-- The JSON error body `{ error: <message> }`. -/
structure ErrorBody where
  error : String
deriving DecidableEq, Repr

/-- Outcome of the middleware: either a rejection response (status code and
body, sent without calling `next()`), or the request proceeds with the
resolved user attached. -/
inductive AuthOutcome
  | reject (status : Nat) (body : ErrorBody)
  | allow (user : User)
deriving DecidableEq, Repr

/-- Helper for JavaScript `String.prototype.split` with a one-character
separator: accumulate characters until the separator, emit, repeat. -/
def jsSplitAux (sep : Char) : List Char → List Char → List String
  | [], acc => [String.mk acc.reverse]
  | c :: cs, acc =>
    if c = sep then String.mk acc.reverse :: jsSplitAux sep cs []
    else jsSplitAux sep cs (c :: acc)

/-- JavaScript `s.split(sep)` for a one-character separator. -/
def jsSplit (sep : Char) (s : String) : List String := jsSplitAux sep s.toList []

/-- Lines 6–9 of the middleware:
`const token = authHeader && authHeader.split(' ')[1]` followed by the
`if (!token)` test.  Returns the token string when one is present and truthy;
`none` covers an absent header, a falsy (empty) header short-circuiting `&&`,
a split with no second segment (token `undefined`), and an empty second
segment (token `""`, falsy). -/
def extractToken : Option String → Option String
  | none => none
  | some h =>
    if h = "" then none
    else
      match (jsSplit ' ' h).get? 1 with
      | none => none
      | some t => if t = "" then none else some t

/-- Lines 13–21 of the middleware applied to an already-parsed token:
`jwt.verify` (any throw is caught at line 22 and answered with
401 "Invalid token"), then `User.findById(decoded.userId)`. -/
def verifyToken (users : List User) (secret : String) (now : Nat) (t : Token) : AuthOutcome :=
  match jwtVerify secret t now with
  | .error _ => .reject 401 ⟨"Invalid token"⟩
  | .ok p =>
    match findById users p.userId with
    | none => .reject 401 ⟨"User not found"⟩
    | some u => .allow u

/-- The middleware on a token string: `decode` maps the string to its parsed
JWT; `none` models a string `jwt.verify` rejects as malformed
(`JsonWebTokenError`, likewise caught at line 22). -/
def verifyTokenString (users : List User) (secret : String) (now : Nat)
    (decode : String → Option Token) (s : String) : AuthOutcome :=
  match decode s with
  | none => .reject 401 ⟨"Invalid token"⟩
  | some t => verifyToken users secret now t

/-- `authenticateToken` (src/middleware/auth.js lines 4–25) on a request whose
`Authorization` header is `authHeader`. -/
def authenticateToken (users : List User) (secret : String) (now : Nat)
    (decode : String → Option Token) (authHeader : Option String) : AuthOutcome :=
  match extractToken authHeader with
  | none => .reject 401 ⟨"Access token required"⟩
  | some s => verifyTokenString users secret now decode s

/-- `router.use(authenticateToken)` followed by a route handler: the response
(`Except` of the middleware rejection) paired with whether the handler was
invoked at all. -/
def runProtected {α : Type} (users : List User) (secret : String) (now : Nat)
    (decode : String → Option Token) (handler : User → α)
    (authHeader : Option String) : Except (Nat × ErrorBody) α × Bool :=
  match authenticateToken users secret now decode authHeader with
  | .reject st b => (.error (st, b), false)
  | .allow u => (.ok (handler u), true)

/-! ### The login route (src/routes/status.js lines 104–118, auth router) -/

/-- Result of `POST /auth/login`: `{token, userId}` with status 200, or an
error body with its status. -/
inductive LoginResult
  | ok (status : Nat) (token : Token) (userId : Nat)
  | err (status : Nat) (body : ErrorBody)
deriving DecidableEq, Repr

/-- `router.post('/login')`: look the user up by username; if absent or the
bcrypt comparison fails, answer 401 `{error: "Invalid credentials"}`;
otherwise issue a token for `user._id`. -/
def login (users : List User) (secret : String) (now : Nat)
    (username password : String) : LoginResult :=
  match findOneByUsername users username with
  | none => .err 401 ⟨"Invalid credentials"⟩
  | some user =>
    if bcryptCompare password user.password then
      .ok 200 (generateToken secret user._id now) user._id
    else .err 401 ⟨"Invalid credentials"⟩

/-! ### Station collection (src/models/station.js, router in src/unnamed/part_000) -/

/-- The five schema fields of a station, all `required: true`
(src/models/station.js lines 3–9).  Mongoose timestamps are bookkeeping
outside the properties under study and are not modelled. -/
structure StationFields where
  name : String
  long : Int
  lat : Int
  type : String
  code : String
deriving DecidableEq, Repr

/-- A persisted station document: `_id` plus the schema fields. -/
structure Station where
  _id : Nat
  fields : StationFields
deriving DecidableEq, Repr

/-- A JSON request body for the station routes: each schema field may be
present or absent. -/
structure StationBody where
  name : Option String
  long : Option Int
  lat : Option Int
  type : Option String
  code : Option String
deriving DecidableEq, Repr

/-- The `required: true` validators of the station schema: validation passes
exactly when every field is present. -/
def stationValidate (body : StationBody) : Option StationFields :=
  match body.name, body.long, body.lat, body.type, body.code with
  | some n, some lo, some la, some ty, some co => some ⟨n, lo, la, ty, co⟩
  | _, _, _, _, _ => none

/-- Merge-patch semantics of `findByIdAndUpdate(id, body)` without
`overwrite`: each path present in the body is `$set`, absent paths keep the
stored value. -/
def mergeFields (f : StationFields) (p : StationBody) : StationFields :=
  { name := p.name.getD f.name
    long := p.long.getD f.long
    lat := p.lat.getD f.lat
    type := p.type.getD f.type
    code := p.code.getD f.code }

/-- `Station.findById(id)`. -/
def stationFindById (db : List Station) (id : Nat) : Option Station :=
  db.find? (fun s => s._id = id)

/-- Response of a station or measurement route: a success status with the
returned document, or an error status with `{error: <message>}`. -/
inductive RouteResult (α : Type)
  | ok (status : Nat) (value : α)
  | err (status : Nat) (body : ErrorBody)
deriving DecidableEq, Repr

/-- The duplicate-key error message raised by the unique index on `code`. -/
def dupKeyMsg : String := "E11000 duplicate key error"

/-- The message of a failed `required` validation. -/
def stationValidationMsg : String := "Station validation failed"

/-- `router.post('/')` of the station router (part_000 lines 461–469):
`new Station(req.body).save()`, answering 201 with the saved document or 400
with the error message.  Saving runs the `required` validators and the unique
index on `code`; on success the document is appended with a fresh `_id`. -/
def stationPost (db : List Station) (body : StationBody) (freshId : Nat) :
    RouteResult Station × List Station :=
  match stationValidate body with
  | none => (.err 400 ⟨stationValidationMsg⟩, db)
  | some f =>
    if db.any (fun s => s.fields.code = f.code) then
      (.err 400 ⟨dupKeyMsg⟩, db)
    else
      let s : Station := ⟨freshId, f⟩
      (.ok 201 s, db ++ [s])

/-- `router.get('/:id')` of the station router (part_000 lines 425–435):
404 `{error: "Station not found"}` when the id resolves to nothing, else 200
with the document. -/
def stationGet (db : List Station) (id : Nat) : RouteResult Station :=
  match stationFindById db id with
  | none => .err 404 ⟨"Station not found"⟩
  | some s => .ok 200 s

/-- `router.patch('/:id')` (part_000 lines 564–578):
`findByIdAndUpdate(id, body, {new, runValidators})` — merge-patch.  The
merged document always satisfies the `required` validators; the unique index
on `code` still applies against the other documents. -/
def stationPatch (db : List Station) (id : Nat) (body : StationBody) :
    RouteResult Station × List Station :=
  match stationFindById db id with
  | none => (.err 404 ⟨"Station not found"⟩, db)
  | some s =>
    let f2 := mergeFields s.fields body
    if db.any (fun x => x._id ≠ id ∧ x.fields.code = f2.code) then
      (.err 400 ⟨dupKeyMsg⟩, db)
    else
      let s2 : Station := ⟨s._id, f2⟩
      (.ok 200 s2, db.map (fun x => if x._id = id then s2 else x))

/-- `router.put('/:id')` (part_000 lines 504–518):
`findByIdAndUpdate(id, body, {new, runValidators, overwrite})` — the document
is replaced whole, so the update validators check every `required` path of
the body itself; prior values play no part in the result. -/
def stationPut (db : List Station) (id : Nat) (body : StationBody) :
    RouteResult Station × List Station :=
  match stationValidate body with
  | none => (.err 400 ⟨stationValidationMsg⟩, db)
  | some f =>
    match stationFindById db id with
    | none => (.err 404 ⟨"Station not found"⟩, db)
    | some s =>
      if db.any (fun x => x._id ≠ id ∧ x.fields.code = f.code) then
        (.err 400 ⟨dupKeyMsg⟩, db)
      else
        let s2 : Station := ⟨s._id, f⟩
        (.ok 200 s2, db.map (fun x => if x._id = id then s2 else x))

/-! ### Measurement collection (schema in src/routes/status.js lines 120–127,
router in src/unnamed/part_000 lines 35–316) -/

/-- A persisted measurement: `{_id, value, station_id, createdAt}`.  The
schema declares `station_id` with `ref: 'Station'`, which is populate
metadata only — no validator consults the Stations collection. -/
structure Measurement where
  _id : Nat
  value : Int
  station_id : Nat
  createdAt : Nat
deriving DecidableEq, Repr

/-- A JSON request body for the measurement routes. -/
structure MeasurementBody where
  value : Option Int
  station_id : Option Nat
deriving DecidableEq, Repr

/-- `router.post('/')` of the measurement router (part_000 lines 168–176):
`new Measurement(req.body).save()`.  The `required` validators demand `value`
and `station_id`; the existence of the referenced station is never checked,
and the Stations collection is not even consulted. -/
def measurementPost (mdb : List Measurement) (body : MeasurementBody)
    (freshId now : Nat) : RouteResult Measurement × List Measurement :=
  match body.value, body.station_id with
  | some v, some sid =>
    let m : Measurement := ⟨freshId, v, sid, now⟩
    (.ok 201 m, mdb ++ [m])
  | _, _ => (.err 400 ⟨"Measurement validation failed"⟩, mdb)

/-! ### Application wiring and the status page -/

/-- The route prefixes mounted by src/app.js (lines 26–31). -/
def appMounts : List String := ["/auth", "/stations", "/measurements", "/api-docs"]

/-- The routers that install `authenticateToken` through `router.use`
(the station and measurement routers do; the auth and status routers have no
middleware). -/
def routersWithAuth : List String := ["station", "measurement"]

/-- The health snapshot computed by the status handler
(src/routes/status.js lines 20–26). -/
structure StatusSnapshot where
  status : String
  version : String
  uptime : Nat
  environment : String
  timestamp : String
deriving DecidableEq, Repr

/-- What `res.send` is given: a JSON rendering of a snapshot, or an HTML
page. -/
inductive SendBody
  | jsonStatus (s : StatusSnapshot)
  | html (page : String)
deriving DecidableEq, Repr

def SendBody.isHtml : SendBody → Bool
  | .html _ => true
  | .jsonStatus _ => false

/-- The template text of the status page up to the interpolated status
value (src/routes/status.js lines 28–44, whitespace normalised). -/
def statusHtmlPre : String :=
  "<!DOCTYPE html> <html> <head> <title>Application Status</title> <style> body \x7b font-family: Arial, sans-serif; margin: 40px; \x7d .status-card \x7b border: 1px solid #ddd; border-radius: 8px; padding: 20px; max-width: 600px; \x7d .status-ok \x7b color: green; \x7d .status-item \x7b margin-bottom: 10px; \x7d h1 \x7b color: #333; \x7d </style> </head> <body> <div class=\"status-card\"> <h1>Application Status</h1> <div class=\"status-item\">Status: <span class=\"status-ok\">"

/-- Template text between the status and version values. -/
def statusHtmlMidVersion : String :=
  "</span></div> <div class=\"status-item\">Version: "

/-- Template text between the version and uptime values. -/
def statusHtmlMidUptime : String :=
  "</div> <div class=\"status-item\">Uptime: "

/-- Template text between the uptime and environment values. -/
def statusHtmlMidEnv : String :=
  " seconds</div> <div class=\"status-item\">Environment: "

/-- Template text between the environment and timestamp values. -/
def statusHtmlMidStamp : String :=
  "</div> <div class=\"status-item\">Last Updated: "

/-- Template text after the timestamp value. -/
def statusHtmlPost : String :=
  "</div> </div> </body> </html>"

/-- The HTML page of the status handler (src/routes/status.js lines 28–52):
the template with the snapshot values interpolated. -/
def statusHtml (s : StatusSnapshot) : String :=
  statusHtmlPre ++ s.status ++ statusHtmlMidVersion ++ s.version
    ++ statusHtmlMidUptime ++ toString s.uptime ++ statusHtmlMidEnv
    ++ s.environment ++ statusHtmlMidStamp ++ s.timestamp ++ statusHtmlPost

/-- `router.get('/')` of the status router (src/routes/status.js lines
19–55): build the snapshot `{status: 'ok', version, uptime, environment
(NODE_ENV defaulting to 'production'), timestamp}`, render it into the HTML
template and `res.send` the page. -/
def statusPageHandler (version : String) (uptimeSeconds : Nat)
    (nodeEnv : Option String) (timestamp : String) : SendBody :=
  let status : StatusSnapshot :=
    ⟨"ok", version, uptimeSeconds, nodeEnv.getD "production", timestamp⟩
  SendBody.html (statusHtml status)

/-- `needle` occurs contiguously inside `hay`. -/
def containsSubstring (hay needle : String) : Prop :=
  ∃ a b, hay = a ++ needle ++ b

/-! ### Concrete fixtures used by the witness theorems -/

/-- A provisioned admin user (tools/createAdmin.js defaults). -/
def userW : User := ⟨1, "admin", bcryptHash "admin123", "admin"⟩

/-- A token issued for the admin at time 0 under the secret "sec". -/
def tokenW : Token := jwtSign "sec" 1 0

/-- A decoding of token strings that recognises exactly the string "tok". -/
def decodeW : String → Option Token :=
  fun s => if s = "tok" then some tokenW else none

/-- A stored station document. -/
def stationW : Station := ⟨1, ⟨"A", 1, 2, "automatic", "C1"⟩⟩

/-- A fully-supplied creation body matching `stationW`. -/
def stationBodyW : StationBody :=
  ⟨some "A", some 1, some 2, some "automatic", some "C1"⟩

/-- A fully-supplied body whose `code` collides with `stationW`. -/
def stationBodyDupW : StationBody :=
  ⟨some "B", some 3, some 4, some "manual", some "C1"⟩

/-- A partial body supplying only `name`. -/
def stationPatchW : StationBody := ⟨some "B", none, none, none, none⟩

/-- A fully-supplied replacement body. -/
def stationPutW : StationBody :=
  ⟨some "B", some 3, some 4, some "manual", some "C2"⟩

/-! ### Helper lemmas -/

theorem mk_toList (s : String) : String.mk s.toList = s := rfl

theorem toList_append (a b : String) : (a ++ b).toList = a.toList ++ b.toList := rfl

theorem str_append_assoc (a b c : String) : a ++ b ++ c = a ++ (b ++ c) :=
  congrArg String.mk (List.append_assoc a.toList b.toList c.toList)

theorem jsSplitAux_no_sep (sep : Char) (cs acc : List Char) (h : sep ∉ cs) :
    jsSplitAux sep cs acc = [String.mk (acc.reverse ++ cs)] := by
  induction cs generalizing acc with
  | nil => simp [jsSplitAux]
  | cons c cs ih =>
    have hc : ¬ c = sep := by rintro rfl; exact h (List.mem_cons_self _ _)
    rw [jsSplitAux, if_neg hc, ih _ (fun hm => h (List.mem_cons_of_mem _ hm))]
    simp

theorem jsSplit_no_sep (sep : Char) (s : String) (h : sep ∉ s.toList) :
    jsSplit sep s = [s] := by
  unfold jsSplit
  rw [jsSplitAux_no_sep sep _ _ h]
  simp [mk_toList]

theorem jsSplit_basic_prefixed (t : String) :
    jsSplit ' ' ("Basic " ++ t) = "Basic" :: jsSplit ' ' t := rfl

theorem extractToken_basic_scheme (t : String) (h1 : t ≠ "") (h2 : ' ' ∉ t.toList) :
    extractToken (some ("Basic " ++ t)) = some t := by
  have hne : ("Basic " ++ t) ≠ "" := by
    intro he
    have hl : ("Basic " ++ t).toList = "".toList := congrArg String.toList he
    rw [toList_append] at hl
    simp at hl
  simp only [extractToken]
  rw [if_neg hne, jsSplit_basic_prefixed, jsSplit_no_sep ' ' t h2]
  simp [h1]

theorem find?_append_of_none {α : Type} (p : α → Bool) (l₁ l₂ : List α)
    (h : l₁.find? p = none) : (l₁ ++ l₂).find? p = l₂.find? p := by
  induction l₁ with
  | nil => rfl
  | cons a l ih =>
    cases hp : p a with
    | true => rw [List.find?_cons_of_pos _ hp] at h; exact absurd h (by simp)
    | false =>
      have hp2 : ¬ p a = true := by simp [hp]
      rw [List.find?_cons_of_neg _ hp2] at h
      rw [List.cons_append, List.find?_cons_of_neg _ hp2]
      exact ih h

theorem stationPatch_ok (db : List Station) (id : Nat) (body : StationBody)
    (old s2 : Station) (st : Nat) (db2 : List Station)
    (hold : stationFindById db id = some old)
    (hp : stationPatch db id body = (.ok st s2, db2)) :
    s2 = ⟨old._id, mergeFields old.fields body⟩ := by
  simp only [stationPatch, hold] at hp
  split at hp
  · simp at hp
  · rw [Prod.mk.injEq] at hp
    obtain ⟨h1, h2⟩ := hp
    injection h1 with hst hs
    exact hs.symm

theorem stationPut_ok (db : List Station) (id : Nat) (body : StationBody)
    (f : StationFields) (s3 : Station) (st : Nat) (db3 : List Station)
    (hv : stationValidate body = some f)
    (hp : stationPut db id body = (.ok st s3, db3)) :
    s3.fields = f := by
  simp only [stationPut, hv] at hp
  split at hp
  · simp at hp
  · split at hp
    · simp at hp
    · rw [Prod.mk.injEq] at hp
      obtain ⟨h1, h2⟩ := hp
      injection h1 with hst hs
      exact congrArg Station.fields hs.symm

/-! ### Claim theorems -/

/-- Claim C1: for every bearer token presented to `authenticateToken`, the
request is allowed to proceed if and only if the token's signature verifies
under the server's current signing secret, its expiry has not elapsed, and
the encoded user identifier resolves to an existing user in the credential
store; if any of the three conditions fails, the middleware rejects with
HTTP 401. -/
theorem token_allows_iff_valid (users : List User) (secret : String) (now : Nat)
    (decode : String → Option Token) (header : Option String) (s : String) (t : Token)
    (hx : extractToken header = some s) (hd : decode s = some t) :
    if t.sig = ⟨secret, t.payload.userId, t.exp⟩ ∧ now < t.exp ∧
        (findById users t.payload.userId).isSome = true then
      ∃ u, authenticateToken users secret now decode header = .allow u ∧
        findById users t.payload.userId = some u
    else
      ∃ b, authenticateToken users secret now decode header = .reject 401 b := by
  by_cases h1 : t.sig = ⟨secret, t.payload.userId, t.exp⟩
  · by_cases h2 : now < t.exp
    · cases hu : findById users t.payload.userId with
      | none => simp [authenticateToken, hx, verifyTokenString, hd, verifyToken, jwtVerify, h1, h2, hu]
      | some u => simp [authenticateToken, hx, verifyTokenString, hd, verifyToken, jwtVerify, h1, h2, hu]
    · simp [authenticateToken, hx, verifyTokenString, hd, verifyToken, jwtVerify, h1, h2]
  · simp [authenticateToken, hx, verifyTokenString, hd, verifyToken, jwtVerify, h1]

/-- Witness for C1 at a concrete store, token and clock. -/
theorem token_allows_iff_valid_witness :
    if tokenW.sig = ⟨"sec", tokenW.payload.userId, tokenW.exp⟩ ∧ 10 < tokenW.exp ∧
        (findById [userW] tokenW.payload.userId).isSome = true then
      ∃ u, authenticateToken [userW] "sec" 10 decodeW (some "Bearer tok") = .allow u ∧
        findById [userW] tokenW.payload.userId = some u
    else
      ∃ b, authenticateToken [userW] "sec" 10 decodeW (some "Bearer tok") = .reject 401 b :=
  token_allows_iff_valid [userW] "sec" 10 decodeW (some "Bearer tok") "tok" tokenW
    rfl rfl

/-- Claim C2: for every stored user and matching (username, password) pair,
`login` returns a credential whose validity window is fixed at 24 hours from
issuance; token verification accepts it at any time before the expiry
elapses and rejects it at any time after the expiry (same secret, user still
in the store). -/
theorem login_token_accepted_until_expiry (users : List User) (secret : String)
    (now0 : Nat) (username password : String) (user : User)
    (hfind : findOneByUsername users username = some user)
    (hpw : bcryptCompare password user.password = true)
    (hid : (findById users user._id).isSome = true) :
    ∃ tok, login users secret now0 username password = .ok 200 tok user._id ∧
      tok.exp = now0 + 24 * 60 * 60 ∧
      (∀ t, t < tok.exp → ∃ u, verifyToken users secret t tok = .allow u) ∧
      (∀ t, tok.exp < t → ∃ b, verifyToken users secret t tok = .reject 401 b) := by
  refine ⟨jwtSign secret user._id now0, ?_, rfl, ?_, ?_⟩
  · simp [login, hfind, hpw, generateToken]
  · intro t ht
    have ht2 : t < now0 + 86400 := ht
    obtain ⟨u, hu⟩ := Option.isSome_iff_exists.mp hid
    exact ⟨u, by simp [verifyToken, jwtVerify, jwtSign, ht2, hu]⟩
  · intro t ht
    have ht2 : now0 + 86400 < t := ht
    exact ⟨⟨"Invalid token"⟩, by simp [verifyToken, jwtVerify, jwtSign, Nat.lt_asymm ht2]⟩

/-- Witness for C2: the provisioned admin logs in at time 0. -/
theorem login_token_accepted_until_expiry_witness :
    ∃ tok, login [userW] "sec" 0 "admin" "admin123" = .ok 200 tok userW._id ∧
      tok.exp = 0 + 24 * 60 * 60 ∧
      (∀ t, t < tok.exp → ∃ u, verifyToken [userW] "sec" t tok = .allow u) ∧
      (∀ t, tok.exp < t → ∃ b, verifyToken [userW] "sec" t tok = .reject 401 b) :=
  login_token_accepted_until_expiry [userW] "sec" 0 "admin" "admin123" userW
    rfl rfl rfl

/-- Claim C3: when no user has the given username, or one does but the
password fails the one-way comparison, `login` answers 401 with body
`{error: "Invalid credentials"}` — the same response in both failure causes,
so the two are indistinguishable to an observer. -/
theorem login_failure_indistinguishable (users : List User) (secret : String)
    (now : Nat) (username password : String)
    (h : findOneByUsername users username = none ∨
      ∃ u, findOneByUsername users username = some u ∧
        bcryptCompare password u.password = false) :
    login users secret now username password = .err 401 ⟨"Invalid credentials"⟩ := by
  rcases h with h | ⟨u, hu, hpw⟩
  · simp [login, h]
  · simp [login, hu, hpw]

/-- Witness for C3: the admin with a wrong password. -/
theorem login_failure_indistinguishable_witness :
    login [userW] "sec" 0 "admin" "wrong" = .err 401 ⟨"Invalid credentials"⟩ :=
  login_failure_indistinguishable [userW] "sec" 0 "admin" "wrong"
    (Or.inr ⟨userW, rfl, by decide⟩)

/-- Claim C4: for every protected request whose `Authorization` header is
absent or carries no token segment, the middleware rejects with HTTP 401 and
body `{error: "Access token required"}`, and the protected handler is never
invoked. -/
theorem missing_token_rejected {α : Type} (users : List User) (secret : String)
    (now : Nat) (decode : String → Option Token) (handler : User → α)
    (header : Option String) (h : extractToken header = none) :
    runProtected users secret now decode handler header
      = (.error (401, ⟨"Access token required"⟩), false) := by
  simp [runProtected, authenticateToken, h]

/-- Witness for C4: `GET /stations` with no `Authorization` header. -/
theorem missing_token_rejected_witness :
    runProtected ([] : List User) "sec" 0 decodeW (fun _ => (0 : Nat)) none
      = (.error (401, ⟨"Access token required"⟩), false) :=
  missing_token_rejected [] "sec" 0 decodeW (fun _ => (0 : Nat)) none rfl

/-- Claim C10: the middleware takes the second whitespace-separated segment
of the `Authorization` header without checking that the scheme is `Bearer`:
a header `Basic <token>` has `<token>` verified as a bearer token, while the
single-segment header `Bearer` is rejected as a missing token with HTTP 401
`{error: "Access token required"}`. -/
theorem scheme_not_checked (users : List User) (secret : String) (now : Nat)
    (decode : String → Option Token) (t : String)
    (h1 : t ≠ "") (h2 : ' ' ∉ t.toList) :
    extractToken (some ("Basic " ++ t)) = some t ∧
    authenticateToken users secret now decode (some ("Basic " ++ t))
      = verifyTokenString users secret now decode t ∧
    authenticateToken users secret now decode (some "Bearer")
      = .reject 401 ⟨"Access token required"⟩ := by
  refine ⟨extractToken_basic_scheme t h1 h2, ?_, rfl⟩
  simp [authenticateToken, extractToken_basic_scheme t h1 h2]

/-- Witness for C10 at the token string "abc". -/
theorem scheme_not_checked_witness :
    extractToken (some ("Basic " ++ "abc")) = some "abc" ∧
    authenticateToken [userW] "sec" 10 decodeW (some ("Basic " ++ "abc"))
      = verifyTokenString [userW] "sec" 10 decodeW "abc" ∧
    authenticateToken [userW] "sec" 10 decodeW (some "Bearer")
      = .reject 401 ⟨"Access token required"⟩ :=
  scheme_not_checked [userW] "sec" 10 decodeW "abc" (by decide) (by decide)

/-- Claim C5 is the spec's intent but not the code's behaviour: the
measurement route runs only the `required` validators and never consults the
Stations collection, so a body whose `station_id` resolves to no station is
persisted with status 201.  Evaluated here at the failing input
`{value: 7, station_id: 42}` against an empty Stations collection. -/
theorem measurement_dangling_station_persisted :
    stationFindById [] 42 = none ∧
    measurementPost [] ⟨some 7, some 42⟩ 1 5
      = (.ok 201 ⟨1, 7, 42, 5⟩, [⟨1, 7, 42, 5⟩]) :=
  ⟨rfl, rfl⟩

/-- Claim C6 fails on the code: app.js never mounts the status router (so no
`/status` path is served at all), and the handler sends an HTML page, not a
machine-readable body. -/
theorem status_not_mounted_and_html :
    "/status" ∉ appMounts ∧
    (statusPageHandler "1.0.0" 5 none "2026-01-01T00:00:00.000Z").isHtml = true :=
  ⟨by decide, rfl⟩

/-- Claim C6 (amended): the status page handler requires no authentication
and computes a health snapshot with the fields status ("ok"), version,
uptime, environment (NODE_ENV defaulting to "production") and timestamp,
but serves it rendered into an HTML page; the status router is not mounted
in app.js. -/
theorem status_handler_html_snapshot (v tmsp : String) (e : Option String) (u : Nat) :
    statusPageHandler v u e tmsp
      = SendBody.html (statusHtml ⟨"ok", v, u, e.getD "production", tmsp⟩) ∧
    containsSubstring (statusHtml ⟨"ok", v, u, e.getD "production", tmsp⟩) v ∧
    containsSubstring (statusHtml ⟨"ok", v, u, e.getD "production", tmsp⟩) (toString u) ∧
    containsSubstring (statusHtml ⟨"ok", v, u, e.getD "production", tmsp⟩)
      (e.getD "production") ∧
    containsSubstring (statusHtml ⟨"ok", v, u, e.getD "production", tmsp⟩) tmsp ∧
    "status" ∉ routersWithAuth ∧
    "/status" ∉ appMounts := by
  refine ⟨rfl, ?_, ?_, ?_, ?_, by decide, by decide⟩
  · exact ⟨statusHtmlPre ++ "ok" ++ statusHtmlMidVersion,
      statusHtmlMidUptime ++ toString u ++ statusHtmlMidEnv ++ e.getD "production"
        ++ statusHtmlMidStamp ++ tmsp ++ statusHtmlPost,
      by simp only [statusHtml, str_append_assoc]⟩
  · exact ⟨statusHtmlPre ++ "ok" ++ statusHtmlMidVersion ++ v ++ statusHtmlMidUptime,
      statusHtmlMidEnv ++ e.getD "production" ++ statusHtmlMidStamp ++ tmsp
        ++ statusHtmlPost,
      by simp only [statusHtml, str_append_assoc]⟩
  · exact ⟨statusHtmlPre ++ "ok" ++ statusHtmlMidVersion ++ v ++ statusHtmlMidUptime
        ++ toString u ++ statusHtmlMidEnv,
      statusHtmlMidStamp ++ tmsp ++ statusHtmlPost,
      by simp only [statusHtml, str_append_assoc]⟩
  · exact ⟨statusHtmlPre ++ "ok" ++ statusHtmlMidVersion ++ v ++ statusHtmlMidUptime
        ++ toString u ++ statusHtmlMidEnv ++ e.getD "production" ++ statusHtmlMidStamp,
      statusHtmlPost,
      by simp only [statusHtml, str_append_assoc]⟩

/-- Claim C7: on an existing station, a successful PATCH merges — each field
supplied in the body takes the supplied value and each omitted field keeps
its prior value — while PUT overwrites whole: a successful PUT returns
exactly the body's validated fields with no dependence on the prior record,
and a body with a missing required field makes PUT fail validation with 400
instead of retaining anything. -/
theorem patch_merges_put_overwrites (db : List Station) (id : Nat) (old : Station)
    (pbody fbody : StationBody)
    (hold : stationFindById db id = some old) :
    (∀ s2 db2, stationPatch db id pbody = (.ok 200 s2, db2) →
      ((pbody.name = none → s2.fields.name = old.fields.name) ∧
        (∀ v, pbody.name = some v → s2.fields.name = v)) ∧
      ((pbody.long = none → s2.fields.long = old.fields.long) ∧
        (∀ v, pbody.long = some v → s2.fields.long = v)) ∧
      ((pbody.lat = none → s2.fields.lat = old.fields.lat) ∧
        (∀ v, pbody.lat = some v → s2.fields.lat = v)) ∧
      ((pbody.type = none → s2.fields.type = old.fields.type) ∧
        (∀ v, pbody.type = some v → s2.fields.type = v)) ∧
      ((pbody.code = none → s2.fields.code = old.fields.code) ∧
        (∀ v, pbody.code = some v → s2.fields.code = v))) ∧
    (∀ f s3 db3, stationValidate fbody = some f →
      stationPut db id fbody = (.ok 200 s3, db3) → s3.fields = f) ∧
    (stationValidate fbody = none →
      stationPut db id fbody = (.err 400 ⟨stationValidationMsg⟩, db)) := by
  refine ⟨?_, ?_, ?_⟩
  · intro s2 db2 hp
    have hs2 := stationPatch_ok db id pbody old s2 200 db2 hold hp
    subst hs2
    refine ⟨⟨?_, ?_⟩, ⟨?_, ?_⟩, ⟨?_, ?_⟩, ⟨?_, ?_⟩, ⟨?_, ?_⟩⟩ <;>
      first
        | (intro h; simp [mergeFields, h])
        | (intro v h; simp [mergeFields, h])
  · intro f s3 db3 hv hp
    exact stationPut_ok db id fbody f s3 200 db3 hv hp
  · intro hv
    simp [stationPut, hv]

/-- Witness for C7: patching only the name of a stored station, and
replacing it whole. -/
theorem patch_merges_put_overwrites_witness :
    (∀ s2 db2, stationPatch [stationW] 1 stationPatchW = (.ok 200 s2, db2) →
      ((stationPatchW.name = none → s2.fields.name = stationW.fields.name) ∧
        (∀ v, stationPatchW.name = some v → s2.fields.name = v)) ∧
      ((stationPatchW.long = none → s2.fields.long = stationW.fields.long) ∧
        (∀ v, stationPatchW.long = some v → s2.fields.long = v)) ∧
      ((stationPatchW.lat = none → s2.fields.lat = stationW.fields.lat) ∧
        (∀ v, stationPatchW.lat = some v → s2.fields.lat = v)) ∧
      ((stationPatchW.type = none → s2.fields.type = stationW.fields.type) ∧
        (∀ v, stationPatchW.type = some v → s2.fields.type = v)) ∧
      ((stationPatchW.code = none → s2.fields.code = stationW.fields.code) ∧
        (∀ v, stationPatchW.code = some v → s2.fields.code = v))) ∧
    (∀ f s3 db3, stationValidate stationPutW = some f →
      stationPut [stationW] 1 stationPutW = (.ok 200 s3, db3) → s3.fields = f) ∧
    (stationValidate stationPutW = none →
      stationPut [stationW] 1 stationPutW
        = (.err 400 ⟨stationValidationMsg⟩, [stationW])) :=
  patch_merges_put_overwrites [stationW] 1 stationW stationPatchW stationPutW rfl

/-- Claim C8: a successful create followed by a read of the returned id
yields the very record that was created, with exactly the created field
values. -/
theorem create_then_get_roundtrip (db : List Station) (body : StationBody)
    (fresh : Nat) (s : Station) (db2 : List Station)
    (hfresh : ∀ s0 ∈ db, s0._id ≠ fresh)
    (hpost : stationPost db body fresh = (.ok 201 s, db2)) :
    stationGet db2 s._id = .ok 200 s ∧ stationValidate body = some s.fields := by
  cases hv : stationValidate body with
  | none => simp [stationPost, hv] at hpost
  | some f =>
    simp only [stationPost, hv] at hpost
    split at hpost
    · simp at hpost
    · rw [Prod.mk.injEq] at hpost
      obtain ⟨h1, h2⟩ := hpost
      injection h1 with hst hs
      subst hs
      subst h2
      have hnone : stationFindById db fresh = none := by
        apply List.find?_eq_none.mpr
        intro x hx
        simp [hfresh x hx]
      refine ⟨?_, by simp [hv]⟩
      unfold stationGet stationFindById
      rw [show (⟨fresh, f⟩ : Station)._id = fresh from rfl,
        find?_append_of_none _ db _ hnone]
      simp [List.find?]

/-- Witness for C8 on an initially empty collection. -/
theorem create_then_get_roundtrip_witness :
    stationGet [stationW] stationW._id = .ok 200 stationW ∧
    stationValidate stationBodyW = some stationW.fields :=
  create_then_get_roundtrip [] stationBodyW 1 stationW [stationW]
    (by simp) rfl

/-- Claim C9: creating a station whose `code` is already taken fails with the
duplicate-key error mapped to HTTP 400, and the collection is returned
unchanged — no new record is persisted. -/
theorem duplicate_code_rejected (db : List Station) (body : StationBody)
    (fresh : Nat) (f : StationFields) (s0 : Station)
    (hvalid : stationValidate body = some f)
    (hmem : s0 ∈ db) (hcode : s0.fields.code = f.code) :
    stationPost db body fresh = (.err 400 ⟨dupKeyMsg⟩, db) := by
  have hdup : db.any (fun s => s.fields.code = f.code) = true :=
    List.any_eq_true.mpr ⟨s0, hmem, by simp [hcode]⟩
  simp [stationPost, hvalid, hdup]

/-- Witness for C9: a second station with the code of `stationW`. -/
theorem duplicate_code_rejected_witness :
    stationPost [stationW] stationBodyDupW 2 = (.err 400 ⟨dupKeyMsg⟩, [stationW]) :=
  duplicate_code_rejected [stationW] stationBodyDupW 2
    ⟨"B", 3, 4, "manual", "C1"⟩ stationW rfl (by simp) rfl

end DevopsUp
